import Mathlib

/-!
# The `cifs-mount-control` interface of snapd

A verification development over `interfaces/builtin/cifs_mount_control.go`.

The source file is static data plus one registration call:

* four package-level string constants (summary, slot base declaration,
  seccomp fragment, AppArmor fragment);
* `init`, which hands one `commonInterface` composite literal to
  `registerIface`.

The constants are embedded character for character (a Go raw string starts
right after the opening backquote, so each multi-line constant begins with a
line feed and ends with one).  Braces inside the policy text are written with
their code points (`\x7b`, `\x7d`).
-/

namespace CifsMountControl

/-! ## The constants of the source file -/

/-- Source line 22. -/
def cifsMountControlSummary : String := "allows to mount and unmount CIFS shares"

/-- Source lines 24-30. -/
def cifsMountControlBaseDeclarationSlots : String :=
  "\n" ++
  "  cifs-mount-control:\n" ++
  "    allow-installation:\n" ++
  "      slot-snap-type:\n" ++
  "        - core\n" ++
  "    deny-auto-connection: true\n"

/-- Source lines 32-37. -/
def cifsMountControlConnectedPlugSecComp : String :=
  "\n" ++
  "# Description: Allow mount and umount access.\n" ++
  "\n" ++
  "mount\n" ++
  "umount\n"

/-- Source lines 39-55. -/
def cifsMountControlConnectedPlugAppArmor : String :=
  "\n" ++
  "# Description: Allow to mount and unmount CIFS filesystems.\n" ++
  "\n" ++
  "# Required for mounts\n" ++
  "capability sys_admin,\n" ++
  "\n" ++
  "# Allow mounts to our snap-specific writable directories\n" ++
  "mount fstype=cifs ** -> /home/*/snap/@\x7bSNAP_NAME\x7d/@\x7bSNAP_REVISION\x7d/\x7b,**/\x7d,\n" ++
  "mount fstype=cifs ** -> /var/snap/@\x7bSNAP_NAME\x7d/@\x7bSNAP_REVISION\x7d/\x7b,**/\x7d,\n" ++
  "mount fstype=cifs ** -> /home/*/snap/@\x7bSNAP_NAME\x7d/common/\x7b,**/\x7d,\n" ++
  "mount fstype=cifs ** -> /var/snap/@\x7bSNAP_NAME\x7d/common/\x7b,**/\x7d,\n" ++
  "\n" ++
  "umount fstype=cifs /home/*/snap/@\x7bSNAP_NAME\x7d/@\x7bSNAP_REVISION\x7d/\x7b,**/\x7d,\n" ++
  "umount fstype=cifs /var/snap/@\x7bSNAP_NAME\x7d/@\x7bSNAP_REVISION\x7d/\x7b,**/\x7d,\n" ++
  "umount fstype=cifs /home/*/snap/@\x7bSNAP_NAME\x7d/common/\x7b,**/\x7d,\n" ++
  "umount fstype=cifs /var/snap/@\x7bSNAP_NAME\x7d/common/\x7b,**/\x7d,\n"

/-! ## The registration -/

/-- Modelled from the spec: the declaration of the `commonInterface` struct is
not in the source file.  The fields are the ones the composite literal in
`init` names, plus `baseDeclarationPlugs` of the spec's InterfaceDefinition;
a field the literal omits has Go's zero value. -/
structure commonInterface where
  name : String := ""
  summary : String := ""
  implicitOnCore : Bool := false
  implicitOnClassic : Bool := false
  baseDeclarationPlugs : String := ""
  baseDeclarationSlots : String := ""
  connectedPlugAppArmor : String := ""
  connectedPlugSecComp : String := ""
  reservedForOS : Bool := false
deriving DecidableEq, Repr

/-- Source lines 57-68.  `registerIface` is defined elsewhere in the package,
so it is a parameter: an effect on some registry state `σ`.  The body is the
single call of the source, with its composite literal. -/
def init {σ : Type} (registerIface : commonInterface → σ → σ) (s : σ) : σ :=
  registerIface
    { name := "cifs-mount-control"
      summary := cifsMountControlSummary
      implicitOnCore := true
      implicitOnClassic := true
      baseDeclarationSlots := cifsMountControlBaseDeclarationSlots
      connectedPlugAppArmor := cifsMountControlConnectedPlugAppArmor
      connectedPlugSecComp := cifsMountControlConnectedPlugSecComp
      reservedForOS := true }
    s

/-- A `registerIface` that only records its argument: the state is the log of
calls made so far, oldest first. -/
def recordCall (d : commonInterface) (log : List commonInterface) : List commonInterface :=
  log ++ [d]

/-- The calls `init` makes, starting from an empty log. -/
def registeredByInit : List commonInterface := init recordCall []

/-! ## Reading policy text line by line -/

/-- Cut a text at every line feed.  A text ending in a line feed has an empty
last line. -/
def splitLines : List Char → List (List Char)
  | [] => [[]]
  | c :: cs =>
    if c = '\n' then [] :: splitLines cs
    else
      match splitLines cs with
      | [] => [[c]]
      | l :: ls => (c :: l) :: ls

/-- A line with nothing but white space on it. -/
def isBlankLine (l : List Char) : Bool := l.all Char.isWhitespace

/-- A line whose first character is `#`. -/
def isCommentLine (l : List Char) : Bool :=
  match l with
  | c :: _ => c == '#'
  | [] => false

/-- The lines of a policy fragment that are neither blank nor `#` comments,
in order and unchanged. -/
def ruleLines (text : String) : List String :=
  ((splitLines text.data).filter (fun l => !isBlankLine l && !isCommentLine l)).map String.mk

/-- Whether `l` begins with `p`. -/
def startsWith (p l : String) : Bool := p.data.isPrefixOf l.data

/-- The first word of a line: its characters up to the first white space. -/
def firstWord (l : String) : String :=
  String.mk (l.data.takeWhile (fun c => !c.isWhitespace))

/-- Number of positions of `text` at which `pat` begins. -/
def occurrences (pat : List Char) : List Char → Nat
  | [] => if pat.isEmpty then 1 else 0
  | c :: cs => (if pat.isPrefixOf (c :: cs) then 1 else 0) + occurrences pat cs

/-- The mount rules of an AppArmor fragment: its rule lines whose first word
is `mount`. -/
def mountRules (text : String) : List String :=
  (ruleLines text).filter (fun l => firstWord l == "mount")

/-- The umount rules of an AppArmor fragment: its rule lines whose first word
is `umount`. -/
def umountRules (text : String) : List String :=
  (ruleLines text).filter (fun l => firstWord l == "umount")

/-- The four snap-specific writable directories, in the order of the source:
the snap's per-revision and common data directories, per user and system
wide. -/
def snapWritableTargets : List String :=
  [ "/home/*/snap/@\x7bSNAP_NAME\x7d/@\x7bSNAP_REVISION\x7d/\x7b,**/\x7d",
    "/var/snap/@\x7bSNAP_NAME\x7d/@\x7bSNAP_REVISION\x7d/\x7b,**/\x7d",
    "/home/*/snap/@\x7bSNAP_NAME\x7d/common/\x7b,**/\x7d",
    "/var/snap/@\x7bSNAP_NAME\x7d/common/\x7b,**/\x7d" ]

/-- The mount rule that allows mounting any CIFS source onto `target`. -/
def cifsMountRule (target : String) : String :=
  "mount fstype=cifs ** -> " ++ target ++ ","

/-- The template placeholders of a text: for every `@\x7b` that is closed by a
later `\x7d`, the characters in between, in order of occurrence. -/
def placeholders : List Char → List String
  | [] => []
  | c :: cs =>
    if c = '@' ∧ cs.head? = some '\x7b' ∧ '\x7d' ∈ cs then
      String.mk ((cs.drop 1).takeWhile (fun x => x != '\x7d')) :: placeholders cs
    else placeholders cs

/-! ## Reading the base declaration as a block mapping

The base declaration is YAML text.  The reader below covers the block subset
the constant is written in: mappings `key:` / `key: value` nested by
indentation, and sequences of `- item` scalars. -/

/-- A document of the block subset: a scalar, a sequence, or a mapping with
its keys in textual order. -/
inductive Yaml where
  | scalar (text : String)
  | seq (items : List Yaml)
  | map (entries : List (String × Yaml))

/-- A significant line: how many blanks it is indented by, and the rest of it
without trailing white space. -/
structure YamlLine where
  indent : Nat
  content : List Char
deriving DecidableEq, Repr

/-- Drop white space at the end of a line. -/
def trimRight (l : List Char) : List Char :=
  (l.reverse.dropWhile Char.isWhitespace).reverse

/-- The significant lines of a text: blank lines and lines whose first
non-blank character is `#` are dropped. -/
def yamlLines (text : String) : List YamlLine :=
  ((splitLines text.data).filter
      (fun l => !isBlankLine l && !isCommentLine (l.dropWhile (fun c => c == ' ')))).map
    (fun l =>
      { indent := (l.takeWhile (fun c => c == ' ')).length
        content := trimRight (l.dropWhile (fun c => c == ' ')) })

/-- Group the lines of a block indented by `n` into its entries: a line at
indent `n` together with the deeper lines that follow it.  Fails on a line
indented by less than `n`, and on deeper lines that no entry precedes. -/
def groupEntries (n : Nat) (ls : List YamlLine) : Option (List (YamlLine × List YamlLine)) :=
  match
    ls.foldr
      (fun l acc =>
        match acc with
        | none => none
        | some (pending, groups) =>
          if l.indent = n then some ([], (l, pending) :: groups)
          else if n < l.indent then some (l :: pending, groups)
          else none)
      (some ([], []))
  with
  | some ([], groups) => some groups
  | _ => none

/-- All the values, when none is missing. -/
def allSome {α : Type} : List (Option α) → Option (List α)
  | [] => some []
  | none :: _ => none
  | some a :: rest =>
    match allSome rest with
    | none => none
    | some as => some (a :: as)

/-- Whether an entry's head line opens a sequence item. -/
def isSeqItem (l : YamlLine) : Bool :=
  l.content = ['-'] || "- ".data.isPrefixOf l.content

/-- Split `key: value` at its first colon; the value loses the blanks in front
of it.  No colon, or an empty key, is a failure. -/
def splitKey (content : List Char) : Option (String × String) :=
  let key := content.takeWhile (fun c => c != ':')
  let rest := content.dropWhile (fun c => c != ':')
  match rest with
  | [] => none
  | _ :: value =>
    if key.isEmpty then none
    else some (String.mk key, String.mk (value.dropWhile (fun c => c == ' ')))

/-- Read a block: either all its entries are `- item` scalars (a sequence) or
all are `key:` entries (a mapping, whose keys must differ).  An entry with a
value on its line has no nested block; an entry without one has the nested
block as its value, or the empty scalar when there is none. -/
def parseBlock : Nat → List YamlLine → Option Yaml
  | 0, _ => none
  | _ + 1, [] => none
  | fuel + 1, l :: ls =>
    match groupEntries l.indent (l :: ls) with
    | none => none
    | some groups =>
      if groups.all (fun g => isSeqItem g.1) then
        (allSome (groups.map (fun g =>
          if g.2.isEmpty then
            some (Yaml.scalar (String.mk ((g.1.content.drop 1).dropWhile (fun c => c == ' '))))
          else none))).map Yaml.seq
      else if groups.all (fun g => !isSeqItem g.1) then
        match
          allSome (groups.map (fun g =>
            match splitKey g.1.content with
            | none => none
            | some (k, v) =>
              if v.isEmpty then
                if g.2.isEmpty then some (k, Yaml.scalar "")
                else (parseBlock fuel g.2).map (fun y => (k, y))
              else if g.2.isEmpty then some (k, Yaml.scalar v)
              else none))
        with
        | none => none
        | some entries =>
          if (entries.map Prod.fst).Nodup then some (Yaml.map entries) else none
      else none

/-- Read a text of the block subset. -/
def readYaml (text : String) : Option Yaml :=
  parseBlock ((yamlLines text).length + 1) (yamlLines text)

/-- The value under a key of a mapping. -/
def Yaml.get (y : Yaml) (key : String) : Option Yaml :=
  match y with
  | Yaml.map entries => entries.lookup key
  | _ => none

/-- The keys of a mapping, in textual order. -/
def Yaml.keys (y : Yaml) : List String :=
  match y with
  | Yaml.map entries => entries.map Prod.fst
  | _ => []

/-- The rules the slot base declaration of a definition holds under the
definition's own name. -/
def slotRules (d : commonInterface) : Option Yaml :=
  match readYaml d.baseDeclarationSlots with
  | none => none
  | some doc => doc.get d.name

/-! ## The eligibility engine of the specification (§4.2, §4.3)

The evaluator and the resolver are not part of the source file.  They are
written here after the specification, and run on the declaration the source
file registers. -/

/-- Modelled from the spec: the result of BaseDeclarationEvaluator (§4.2),
"one of Allowed, Denied, RequiresManualConsent". -/
inductive Result where
  | Allowed
  | Denied
  | RequiresManualConsent
deriving DecidableEq, Repr

/-- Modelled from the spec: the application instance that owns a plug or a
slot, with the snap type that `slot-snap-type` is matched against (§4.2,
"the slot-providing entity's type"). -/
structure Instance where
  id : String
  snapType : String
deriving DecidableEq, Repr

/-- Modelled from the spec: a plug or slot reference (§3), "(application-
instance id, interface name, optional attributes mapping)". -/
structure Ref where
  owner : Instance
  iface : String
  attrs : List (String × String)
deriving DecidableEq, Repr

/-- Modelled from the spec: a Connection (§3), the ordered pair of a plug
reference and a slot reference. -/
structure Connection where
  plug : Ref
  slot : Ref
deriving DecidableEq, Repr

/-- Modelled from the spec: the errors of the resolver (§4.3, §7). -/
inductive ResolverError where
  | NoEligibleSlot
  | Forbidden
deriving DecidableEq, Repr

/-- Modelled from the spec: the body of one rule (§4.2 item 2).  Either a
static flag (`true` / `false`), or the constraint `slot-snap-type` with the
list of admitted types.  The attribute constraints the spec mentions have no
concrete syntax in it; a rule using another constraint is not read. -/
inductive Rule where
  | flag (value : Bool)
  | slotSnapType (types : List String)
deriving DecidableEq, Repr

/-- Modelled from the spec: the rules of one interface by category (§4.2):
install-time allow/deny, connection-time allow/deny, and the automatic
connection allow/deny. -/
structure BaseDeclaration where
  allowInstallation : Option Rule
  denyInstallation : Option Rule
  allowConnection : Option Rule
  denyConnection : Option Rule
  allowAutoConnection : Option Rule
  denyAutoConnection : Option Rule
deriving DecidableEq, Repr

/-- The text of a scalar. -/
def scalarText (y : Yaml) : Option String :=
  match y with
  | Yaml.scalar t => some t
  | _ => none

/-- Modelled from the spec: read a rule body from the declaration text. -/
def readRule (y : Yaml) : Option Rule :=
  match y with
  | Yaml.scalar t =>
    if t = "true" then some (Rule.flag true)
    else if t = "false" then some (Rule.flag false)
    else none
  | Yaml.map [(k, Yaml.seq items)] =>
    if k = "slot-snap-type" then (allSome (items.map scalarText)).map Rule.slotSnapType
    else none
  | _ => none

/-- The rule names a declaration may use. -/
def ruleNames : List String :=
  ["allow-installation", "deny-installation", "allow-connection", "deny-connection",
   "allow-auto-connection", "deny-auto-connection"]

/-- The rule under `name`, when present; fails when it is present and cannot
be read. -/
def readRuleAt (entries : List (String × Yaml)) (name : String) : Option (Option Rule) :=
  match entries.lookup name with
  | none => some none
  | some y => (readRule y).map some

/-- Modelled from the spec: read the rules of one interface.  Fails on a key
that is no rule name and on a rule body that cannot be read. -/
def readBaseDeclaration (rules : Yaml) : Option BaseDeclaration :=
  match rules with
  | Yaml.map entries =>
    if entries.all (fun e => decide (e.1 ∈ ruleNames)) then do
      let ai ← readRuleAt entries "allow-installation"
      let di ← readRuleAt entries "deny-installation"
      let ac ← readRuleAt entries "allow-connection"
      let dc ← readRuleAt entries "deny-connection"
      let aa ← readRuleAt entries "allow-auto-connection"
      let da ← readRuleAt entries "deny-auto-connection"
      pure
        { allowInstallation := ai, denyInstallation := di, allowConnection := ac,
          denyConnection := dc, allowAutoConnection := aa, denyAutoConnection := da }
    else none
  | _ => none

/-- The slot-side rules of a registered definition. -/
def slotDeclaration (d : commonInterface) : Option BaseDeclaration :=
  (slotRules d).bind readBaseDeclaration

/-- Modelled from the spec: whether a rule matches the candidate (§4.2 item
2): a flag matches when it is true, `slot-snap-type` when the type of the
slot's owner is in the list.  An absent rule matches nothing. -/
def ruleMatches (r : Option Rule) (slot : Ref) : Bool :=
  match r with
  | none => false
  | some (Rule.flag value) => value
  | some (Rule.slotSnapType types) => decide (slot.owner.snapType ∈ types)

/-- Modelled from the spec: install-time eligibility of the slot (§4.2): a
matching deny rule wins (item 1), a matching allow rule allows, and "absence of
any matching rule ... defaults to Denied for install-time eligibility"
(item 3). -/
def installEligibility (decl : BaseDeclaration) (slot : Ref) : Result :=
  if ruleMatches decl.denyInstallation slot then Result.Denied
  else if ruleMatches decl.allowInstallation slot then Result.Allowed
  else Result.Denied

/-- Modelled from the spec: connection-time eligibility of the pair (§4.2): a
matching deny rule wins (item 1); `deny-auto-connection` means "the pair is
never eligible for automatic connection (manual consent is still possible)"
(item 2); a matching automatic-connection allow rule allows; absence of any
matching rule defaults to "requires manual consent" (item 3). -/
def connectEligibility (decl : BaseDeclaration) (slot : Ref) : Result :=
  if ruleMatches decl.denyConnection slot then Result.Denied
  else if ruleMatches decl.denyAutoConnection slot then Result.RequiresManualConsent
  else if ruleMatches decl.allowAutoConnection slot then Result.Allowed
  else Result.RequiresManualConsent

/-- Modelled from the spec: BaseDeclarationEvaluator (§4.2) on a candidate
pair, under the slot-side declaration of the interface: a slot that is not
eligible at install time is Denied; otherwise the connection-time result
stands.  The two rule sets are evaluated independently (§9). -/
def evaluate (decl : BaseDeclaration) (_plug slot : Ref) : Result :=
  match installEligibility decl slot with
  | Result.Denied => Result.Denied
  | _ => connectEligibility decl slot

/-- Modelled from the spec: requestAutoConnect (§4.3): keep the candidates
whose interface name is the plug's, in the order given, and connect to the
first one evaluated Allowed; NoEligibleSlot when there is none. -/
def requestAutoConnect (decl : BaseDeclaration) (plug : Ref) (candidateSlots : List Ref) :
    Except ResolverError Connection :=
  match (candidateSlots.filter (fun s => s.iface == plug.iface)).find?
      (fun s => evaluate decl plug s == Result.Allowed) with
  | some s => Except.ok { plug := plug, slot := s }
  | none => Except.error ResolverError.NoEligibleSlot

/-- Modelled from the spec: connectManual (§4.3): Forbidden when the pair is
Denied; Allowed and RequiresManualConsent both succeed. -/
def connectManual (decl : BaseDeclaration) (plug slot : Ref) :
    Except ResolverError Connection :=
  if evaluate decl plug slot = Result.Denied then Except.error ResolverError.Forbidden
  else Except.ok { plug := plug, slot := slot }

end CifsMountControl

namespace CifsMountControl

set_option maxRecDepth 100000

/-- C1: `init` makes exactly one `registerIface` call, whatever `registerIface`
does; the definition it passes is named "cifs-mount-control", has the summary
"allows to mount and unmount CIFS shares", and has implicitOnCore,
implicitOnClassic and reservedForOS all true. -/
theorem init_registers_cifs_mount_control_once :
    ∃ d : commonInterface,
      (∀ (σ : Type) (registerIface : commonInterface → σ → σ) (s : σ),
        init registerIface s = registerIface d s) ∧
      (∀ log : List commonInterface, init recordCall log = log ++ [d]) ∧
      registeredByInit = [d] ∧
      registeredByInit.length = 1 ∧
      d.name = "cifs-mount-control" ∧
      d.summary = "allows to mount and unmount CIFS shares" ∧
      d.summary = cifsMountControlSummary ∧
      d.implicitOnCore = true ∧
      d.implicitOnClassic = true ∧
      d.reservedForOS = true :=
  ⟨_, fun _ _ _ => rfl, fun _ => rfl, rfl, rfl, rfl, rfl, rfl, rfl, rfl, rfl⟩

/-- C3: the seccomp fragment, with blank lines and `#` lines dropped, is
exactly the two lines "mount" and "umount", and this constant is what `init`
registers as connectedPlugSecComp. -/
theorem secComp_allows_mount_and_umount_only :
    ruleLines cifsMountControlConnectedPlugSecComp = ["mount", "umount"] ∧
    registeredByInit.map (fun d => d.connectedPlugSecComp) =
      [cifsMountControlConnectedPlugSecComp] := by
  refine ⟨by decide, rfl⟩

/-- C4: every rule line of the AppArmor fragment is the capability rule
"capability sys_admin," or begins with "mount fstype=cifs " or with
"umount fstype=cifs "; a rule whose first word is mount or umount carries that
one fstype restriction and no second one, and the only capability rule is the
sys_admin one.  This constant is what `init` registers as
connectedPlugAppArmor. -/
theorem appArmor_allows_only_cifs_mount_umount :
    (∀ l ∈ ruleLines cifsMountControlConnectedPlugAppArmor,
      l = "capability sys_admin," ∨
      startsWith "mount fstype=cifs " l = true ∨
      startsWith "umount fstype=cifs " l = true) ∧
    (∀ l ∈ ruleLines cifsMountControlConnectedPlugAppArmor,
      firstWord l = "mount" → startsWith "mount fstype=cifs " l = true) ∧
    (∀ l ∈ ruleLines cifsMountControlConnectedPlugAppArmor,
      firstWord l = "umount" → startsWith "umount fstype=cifs " l = true) ∧
    (∀ l ∈ ruleLines cifsMountControlConnectedPlugAppArmor,
      firstWord l = "mount" ∨ firstWord l = "umount" →
        occurrences "fstype=".data l.data = 1 ∧ occurrences "mount".data l.data = 1) ∧
    (∀ l ∈ ruleLines cifsMountControlConnectedPlugAppArmor,
      0 < occurrences "capability".data l.data → l = "capability sys_admin,") ∧
    (ruleLines cifsMountControlConnectedPlugAppArmor).length = 9 ∧
    (mountRules cifsMountControlConnectedPlugAppArmor).length = 4 ∧
    (umountRules cifsMountControlConnectedPlugAppArmor).length = 4 ∧
    registeredByInit.map (fun d => d.connectedPlugAppArmor) =
      [cifsMountControlConnectedPlugAppArmor] := by
  refine ⟨by decide, by decide, by decide, by decide, by decide, by decide, by decide,
    by decide, rfl⟩

/-- C5: every mount rule of the AppArmor fragment is
"mount fstype=cifs ** -> T," for one of the four snap-specific writable
directories T; each of the four starts with "/home/*/snap/@\x7bSNAP_NAME\x7d/" or
"/var/snap/@\x7bSNAP_NAME\x7d/"; and each of the four is the target of exactly one
mount rule. -/
theorem mount_targets_are_snap_writable_dirs :
    (∀ l ∈ mountRules cifsMountControlConnectedPlugAppArmor,
      ∃ t ∈ snapWritableTargets, l = cifsMountRule t) ∧
    mountRules cifsMountControlConnectedPlugAppArmor = snapWritableTargets.map cifsMountRule ∧
    snapWritableTargets.length = 4 ∧
    snapWritableTargets.Nodup ∧
    (∀ t ∈ snapWritableTargets,
      startsWith "/home/*/snap/@\x7bSNAP_NAME\x7d/" t = true ∨
      startsWith "/var/snap/@\x7bSNAP_NAME\x7d/" t = true) ∧
    (∀ t ∈ snapWritableTargets,
      ((mountRules cifsMountControlConnectedPlugAppArmor).filter
        (fun l => l == cifsMountRule t)).length = 1) := by
  refine ⟨by decide, by decide, by decide, by decide, by decide, by decide⟩

/-- C7: the placeholders of the AppArmor fragment are SNAP_NAME and
SNAP_REVISION and no other; every mount rule and every umount rule contains
the SNAP_NAME placeholder; the seccomp fragment and the slot base declaration
contain no placeholder, not even an opening one. -/
theorem placeholders_are_snap_name_and_revision :
    (∀ p ∈ placeholders cifsMountControlConnectedPlugAppArmor.data,
      p = "SNAP_NAME" ∨ p = "SNAP_REVISION") ∧
    "SNAP_NAME" ∈ placeholders cifsMountControlConnectedPlugAppArmor.data ∧
    "SNAP_REVISION" ∈ placeholders cifsMountControlConnectedPlugAppArmor.data ∧
    occurrences "@\x7b".data cifsMountControlConnectedPlugAppArmor.data =
      (placeholders cifsMountControlConnectedPlugAppArmor.data).length ∧
    (∀ l ∈ mountRules cifsMountControlConnectedPlugAppArmor,
      "SNAP_NAME" ∈ placeholders l.data) ∧
    (∀ l ∈ umountRules cifsMountControlConnectedPlugAppArmor,
      "SNAP_NAME" ∈ placeholders l.data) ∧
    placeholders cifsMountControlConnectedPlugSecComp.data = [] ∧
    occurrences "@\x7b".data cifsMountControlConnectedPlugSecComp.data = 0 ∧
    placeholders cifsMountControlBaseDeclarationSlots.data = [] ∧
    occurrences "@\x7b".data cifsMountControlBaseDeclarationSlots.data = 0 := by
  refine ⟨by decide, by decide, by decide, by decide, by decide, by decide, by decide,
    by decide, by decide, by decide⟩

/-- C2: read as a block mapping, the slot base declaration has the single
key cifs-mount-control, under which there are exactly two rules:
allow-installation, whose only constraint is slot-snap-type with the
one-element list [core], and deny-auto-connection with value true.  No other
key beginning with allow- or deny- is present (neither allow-auto-connection
nor deny-installation), and this constant is what `init` registers as
baseDeclarationSlots. -/
theorem base_declaration_slots_has_exactly_two_rules :
    readYaml cifsMountControlBaseDeclarationSlots =
      some (Yaml.map
        [("cifs-mount-control",
          Yaml.map
            [("allow-installation",
              Yaml.map [("slot-snap-type", Yaml.seq [Yaml.scalar "core"])]),
             ("deny-auto-connection", Yaml.scalar "true")])]) ∧
    registeredByInit.map (fun d => d.baseDeclarationSlots) =
      [cifsMountControlBaseDeclarationSlots] ∧
    registeredByInit.map (fun d => (slotRules d).map Yaml.keys) =
      [some ["allow-installation", "deny-auto-connection"]] ∧
    (∀ d ∈ registeredByInit, ∀ rules, slotRules d = some rules →
      rules.get "allow-auto-connection" = none ∧
      rules.get "deny-installation" = none ∧
      ∀ k ∈ rules.keys, startsWith "allow-" k = true ∨ startsWith "deny-" k = true →
        k = "allow-installation" ∨ k = "deny-auto-connection") ∧
    occurrences "allow-".data cifsMountControlBaseDeclarationSlots.data = 1 ∧
    occurrences "deny-".data cifsMountControlBaseDeclarationSlots.data = 1 := by
  have hrules : ∀ d ∈ registeredByInit, slotRules d =
      some (Yaml.map
        [("allow-installation",
          Yaml.map [("slot-snap-type", Yaml.seq [Yaml.scalar "core"])]),
         ("deny-auto-connection", Yaml.scalar "true")]) := by
    intro d hd
    have hd2 : d ∈ [_] := hd
    rw [List.mem_singleton] at hd2
    subst hd2
    rfl
  refine ⟨rfl, rfl, rfl, ?_, by decide, by decide⟩
  intro d hd rules hr
  rw [hrules d hd] at hr
  cases hr
  refine ⟨rfl, rfl, by decide⟩

/-- No slot is ever evaluated Allowed under a declaration whose
deny-auto-connection flag is set and which has no connection-time deny
rule. -/
theorem evaluate_ne_allowed_of_denyAuto (decl : BaseDeclaration) (plug slot : Ref)
    (hda : decl.denyAutoConnection = some (Rule.flag true)) :
    evaluate decl plug slot ≠ Result.Allowed := by
  unfold evaluate installEligibility connectEligibility
  simp only [hda, ruleMatches]
  split_ifs <;> simp

/-- C6: under the slot declaration `init` registers for cifs-mount-control,
the plug of a regular application against a slot of a non-core instance is
Denied; against a slot of the core instance it is RequiresManualConsent, so
requestAutoConnect reports NoEligibleSlot (for that slot alone, and for any
list of candidates) while connectManual for the pair succeeds. -/
theorem cifs_core_slot_requires_manual_consent (plug slot : Ref)
    (_happ : plug.owner.snapType = "app")
    (hplug : plug.iface = "cifs-mount-control")
    (hslot : slot.iface = "cifs-mount-control") :
    ∃ d decl, registeredByInit = [d] ∧ d.name = plug.iface ∧
      slotDeclaration d = some decl ∧
      [slot].filter (fun s => s.iface == plug.iface) = [slot] ∧
      (slot.owner.snapType ≠ "core" → evaluate decl plug slot = Result.Denied) ∧
      (slot.owner.snapType = "core" →
        evaluate decl plug slot = Result.RequiresManualConsent ∧
        requestAutoConnect decl plug [slot] = Except.error ResolverError.NoEligibleSlot ∧
        connectManual decl plug slot = Except.ok { plug := plug, slot := slot }) ∧
      (∀ candidateSlots : List Ref,
        requestAutoConnect decl plug candidateSlots =
          Except.error ResolverError.NoEligibleSlot) := by
  have hnone : ∀ (decl : BaseDeclaration),
      decl.denyAutoConnection = some (Rule.flag true) → ∀ cs : List Ref,
      requestAutoConnect decl plug cs = Except.error ResolverError.NoEligibleSlot := by
    intro decl hda cs
    have hfind : (cs.filter (fun s => s.iface == plug.iface)).find?
        (fun s => evaluate decl plug s == Result.Allowed) = none := by
      rw [List.find?_eq_none]
      intro s _
      simpa using evaluate_ne_allowed_of_denyAuto decl plug s hda
    unfold requestAutoConnect
    rw [hfind]
  refine ⟨_, { allowInstallation := some (Rule.slotSnapType ["core"]), denyInstallation := none,
               allowConnection := none, denyConnection := none, allowAutoConnection := none,
               denyAutoConnection := some (Rule.flag true) }, rfl, hplug.symm, rfl, ?_, ?_, ?_, ?_⟩
  · simp [hplug, hslot]
  · intro hne
    simp [evaluate, installEligibility, ruleMatches, hne]
  · intro hcore
    have hev : evaluate
        { allowInstallation := some (Rule.slotSnapType ["core"]), denyInstallation := none,
          allowConnection := none, denyConnection := none, allowAutoConnection := none,
          denyAutoConnection := some (Rule.flag true) } plug slot
        = Result.RequiresManualConsent := by
      simp [evaluate, installEligibility, connectEligibility, ruleMatches, hcore]
    refine ⟨hev, hnone _ rfl _, ?_⟩
    simp [connectManual, hev]
  · exact hnone _ rfl

/-- C6, at a concrete pair: the plug of the application `backup-tool` against
the cifs-mount-control slot of the core instance. -/
theorem cifs_core_slot_requires_manual_consent_witness :
    ∃ d decl, registeredByInit = [d] ∧ d.name = "cifs-mount-control" ∧
      slotDeclaration d = some decl ∧
      evaluate decl
        { owner := { id := "backup-tool", snapType := "app" },
          iface := "cifs-mount-control", attrs := [] }
        { owner := { id := "core", snapType := "core" },
          iface := "cifs-mount-control", attrs := [] }
        = Result.RequiresManualConsent ∧
      evaluate decl
        { owner := { id := "backup-tool", snapType := "app" },
          iface := "cifs-mount-control", attrs := [] }
        { owner := { id := "file-server", snapType := "app" },
          iface := "cifs-mount-control", attrs := [] }
        = Result.Denied := by
  obtain ⟨d, decl, hd, hname, hdecl, _, _, hcore, _⟩ :=
    cifs_core_slot_requires_manual_consent
      { owner := { id := "backup-tool", snapType := "app" },
        iface := "cifs-mount-control", attrs := [] }
      { owner := { id := "core", snapType := "core" },
        iface := "cifs-mount-control", attrs := [] }
      rfl rfl rfl
  refine ⟨d, decl, hd, hname, hdecl, (hcore rfl).1, ?_⟩
  have hd2 : [d] = registeredByInit := hd.symm
  cases hd2
  cases hdecl
  decide

end CifsMountControl
